import Mathlib

/- Verification of googlesheety.py, the Zoho WorkDrive → Google Sheets
permalink synchronizer.  The script is sequential glue code over three HTTP
APIs; we embed each of its functions as a pure Lean function over explicit
response environments (every `requests` call's parsed outcome is a parameter:
`none` models a raised transport error of the kind caught by the source's
`except requests.exceptions.RequestException`, `some body` a parsed JSON
body).  `time.sleep` pacing and log output are not modelled. -/

namespace Googlesheety

/-- Parsed JSON values, the result type of `response.json()` in the source. -/
inductive Json where
  | null
  | str (s : String)
  | num (n : Int)
  | bool (b : Bool)
  | arr (xs : List Json)
  | obj (fields : List (String × Json))

/-- Python truthiness of a parsed-JSON value (used by `if permalink:` and
`if result["permalink"]:` in the source). -/
def Json.truthy : Json → Bool
  | .null => false
  | .str s => !(s == "")
  | .num n => !(n == 0)
  | .bool b => b
  | .arr xs => !xs.isEmpty
  | .obj fs => !fs.isEmpty

/-- Python `d.get(key, default)`: on a JSON object it returns the field value,
or `default` when the key is absent; on any other value Python raises
AttributeError, modelled as `none` (an uncaught exception). -/
def pyGetD (j : Json) (key : String) (d : Json) : Option Json :=
  match j with
  | .obj fields => some ((fields.lookup key).getD d)
  | _ => none

/-- Python `l[i]`: on a JSON array it returns element `i`, or raises
IndexError (`none`) when out of range; on any other value it raises (`none`). -/
def pyIndex (j : Json) (i : Nat) : Option Json :=
  match j with
  | .arr xs => xs.get? i
  | _ => none

/-- Whitespace characters removed by Python `str.strip()` (ASCII range). -/
def pyIsSpace (c : Char) : Bool :=
  c = ' ' || c = '\t' || c = '\n' || c = '\r' || c = '\x0b' || c = '\x0c'

/-- Python `s.strip()`: removes leading and trailing whitespace. -/
def pyStrip (s : String) : String :=
  ⟨((s.data.dropWhile pyIsSpace).reverse.dropWhile pyIsSpace).reverse⟩

/-- Python `s.startswith(pre)`, used to embed the source's anchored regex. -/
def pyStartsWith (s pre : String) : Bool :=
  pre.data.isPrefixOf s.data

/-- The source's `re.match(r'^https?://', s)` succeeds exactly when `s`
begins with `http://` or with `https://`. -/
def matchesUrlScheme (s : String) : Bool :=
  pyStartsWith s "http://" || pyStartsWith s "https://"

/- ----------------------------------------------------------------------
Token Refresher: refresh_access_token (source lines 65-90).
---------------------------------------------------------------------- -/

/-- The five environment-sourced configuration values, as read by
`os.getenv` at import time: `none` models an unset variable, `some ""` a
variable set to the empty string. -/
structure Config where
  ZOHO_REFRESH_TOKEN : Option String
  ZOHO_CLIENT_ID : Option String
  ZOHO_CLIENT_SECRET : Option String
  GEMINI_API_KEY : Option String
  GOOGLE_SPREADSHEET_ID : Option String

/-- Python falsiness of an `os.getenv` result (`if not x:`): unset (`None`)
or the empty string. -/
def pyFalsy : Option String → Bool
  | none => true
  | some s => s == ""

/-- Outcome of the token-endpoint POST: a raised transport error, or a parsed
JSON body, modelled as an object with string-valued fields (the shape the
token endpoint returns). -/
inductive TokenResp where
  | transportErr
  | ok (data : List (String × String))

/-- The process-wide authorization state: the module globals
`zoho_auth_token` and `zoho_headers['Authorization']` (both initially None). -/
structure AuthState where
  zoho_auth_token : Option String
  authorizationHeader : Option String

/-- Result of one call to `refresh_access_token`: the returned boolean, the
authorization state after the call, and whether the HTTP request to the token
endpoint was issued at all. -/
structure RefreshResult where
  success : Bool
  state : AuthState
  networkCalled : Bool

/-- Source `refresh_access_token`: checks `None in refresh_params.values()`
(unset-ness of the three Zoho variables — note this does NOT reject an
empty-string value), then falsiness of `GEMINI_API_KEY` and
`GOOGLE_SPREADSHEET_ID`, then posts to the token endpoint and, when the body
has an `access_token` field, installs the formatted bearer value in both
globals. -/
def refresh_access_token (cfg : Config) (resp : TokenResp) (st : AuthState) :
    RefreshResult :=
  if cfg.ZOHO_REFRESH_TOKEN = none ∨ cfg.ZOHO_CLIENT_ID = none ∨
      cfg.ZOHO_CLIENT_SECRET = none then
    ⟨false, st, false⟩
  else if pyFalsy cfg.GEMINI_API_KEY then ⟨false, st, false⟩
  else if pyFalsy cfg.GOOGLE_SPREADSHEET_ID then ⟨false, st, false⟩
  else
    match resp with
    | .transportErr => ⟨false, st, true⟩
    | .ok data =>
      match data.lookup "access_token" with
      | some tok => ⟨true, ⟨some ("Zoho-oauthtoken " ++ tok),
          some ("Zoho-oauthtoken " ++ tok)⟩, true⟩
      | none => ⟨false, st, true⟩

/- ----------------------------------------------------------------------
File Lister: fetch_file_ids (source lines 92-116).
---------------------------------------------------------------------- -/

/-- The id-collection of one page (source lines 105-108): `file.get('id')`
is appended only when truthy, i.e. present and non-empty. -/
def collectIds (files : List (Option String)) : List String :=
  files.filterMap fun f =>
    match f with
    | none => none
    | some s => if s = "" then none else some s

/-- The `while True` pagination loop of `fetch_file_ids` on the error-free
path: the remote folder holds the item list `folder`, and the request at a
given offset is answered with `(folder.drop offset).take 50` (the source's
`page[limit]=50`, `page[offset]=offset` window).  Returns the ids collected
from this offset on, and the number of page requests issued from this offset
on.  The loop breaks when a page is empty or shorter than the 50-item limit;
otherwise the offset advances by the limit. -/
def fetch_file_ids_from (folder : List (Option String)) (offset : Nat) :
    List String × Nat :=
  if h1 : ((folder.drop offset).take 50).length = 0 then ([], 1)
  else if h2 : ((folder.drop offset).take 50).length < 50 then
    (collectIds ((folder.drop offset).take 50), 1)
  else
    let next := fetch_file_ids_from folder (offset + 50)
    (collectIds ((folder.drop offset).take 50) ++ next.1, next.2 + 1)
termination_by folder.length - offset
decreasing_by
  simp only [List.length_take, List.length_drop] at h1 h2
  omega

/-- Source `fetch_file_ids`: the pagination loop started at offset 0,
instrumented with the page-request count. -/
def fetch_file_ids (folder : List (Option String)) : List String × Nat :=
  fetch_file_ids_from folder 0

/- ----------------------------------------------------------------------
Link Extractor: extract_permalink_with_gemini (source lines 150-181).
---------------------------------------------------------------------- -/

/-- Source line 168: the defaulted nested lookups
`gemini_response.get('candidates', [{}])[0].get('content', {})
.get('parts', [{}])[0].get('text', 'None')` on the Gemini response body.
`none` models an uncaught Python exception (AttributeError on a non-dict,
IndexError on an empty list, or `.strip()` on a non-string value) — only
RequestException is caught by the source, so these abort the run. -/
def geminiExtractedText (gemini_response : Json) : Option String := do
  let c ← pyGetD gemini_response "candidates" (.arr [.obj []])
  let c0 ← pyIndex c 0
  let content ← pyGetD c0 "content" (.obj [])
  let parts ← pyGetD content "parts" (.arr [.obj []])
  let p0 ← pyIndex parts 0
  let t ← pyGetD p0 "text" (.str "None")
  match t with
  | .str s => some s
  | _ => none

/-- Source `extract_permalink_with_gemini`, as a function of the Gemini HTTP
call's outcome (`none` = transport error, caught and turned into no link).
The overall result is `none` when an uncaught exception escapes, and `some r`
when the function returns `r` (`r = none` is Python `None`, no link).  The
prompt construction and the request itself are environment, not modelled. -/
def extract_permalink_with_gemini (geminiResp : Option Json) :
    Option (Option String) :=
  match geminiResp with
  | none => some none
  | some resp =>
    match geminiExtractedText resp with
    | none => none
    | some s =>
      let extracted_text := pyStrip s
      if extracted_text = "None" ∨ extracted_text = "" then some none
      else if matchesUrlScheme extracted_text then some (some extracted_text)
      else some none

/- ----------------------------------------------------------------------
Permission Setter: set_permissions_and_get_permalink (source lines 118-148).
---------------------------------------------------------------------- -/

/-- The per-file result dict
`{"file_id": ..., "permalink": ..., "success": ...}`. -/
structure PermResult where
  file_id : String
  permalink : Option Json
  success : Bool

/-- Source line 137:
`response_data.get('data', {}).get('attributes', {}).get('permalink')`.
`none` models an uncaught exception (calling `.get` on a non-dict). -/
def directPermalink (response_data : Json) : Option Json := do
  let d ← pyGetD response_data "data" (.obj [])
  let a ← pyGetD d "attributes" (.obj [])
  pyGetD a "permalink" .null

/-- Source `set_permissions_and_get_permalink` for one file id, as a function
of the permission POST outcome and (for the fallback path) the Gemini call
outcome.  A transport error on the permission call is caught and yields the
failure record; an uncaught exception in either extraction path is `none`.
The direct path is used when the directly extracted permalink is truthy,
otherwise the Gemini fallback's string (or Python None) is used; either way
the permission call itself succeeded, so `success` is true. -/
def set_permissions_and_get_permalink (permResp : Option Json)
    (geminiResp : Option Json) (file_id : String) : Option PermResult :=
  match permResp with
  | none => some ⟨file_id, none, false⟩
  | some response_data =>
    match directPermalink response_data with
    | none => none
    | some direct =>
      if direct.truthy then some ⟨file_id, some direct, true⟩
      else
        match extract_permalink_with_gemini geminiResp with
        | none => none
        | some g => some ⟨file_id, g.map Json.str, true⟩

/- ----------------------------------------------------------------------
Sheet Synchronizer: get_google_sheets_service and append_to_google_sheet
(source lines 52-63 and 183-221).
---------------------------------------------------------------------- -/

/-- The two classes of Python exception distinguished by the source's
handlers: `googleapiclient.errors.HttpError`, and every other `Exception`. -/
inductive PyExc where
  | httpError
  | otherError

/-- State of the pre-provisioned authorized-user token file at TOKEN_PATH. -/
inductive TokenFileState where
  | absent
  | invalid
  | valid

/-- Outcome of `get_google_sheets_service`: the returned service handle (or
the exception it re-raises), plus whether an interactive re-authorization
flow was run (the source never runs one — `InstalledAppFlow` is imported but
never invoked; a missing or invalid token file raises ValueError instead). -/
structure ServiceOutcome where
  result : Except PyExc Unit
  interactiveReauth : Bool

/-- Source `get_google_sheets_service`: loads credentials from the token
file when it exists; when the file is absent or the credentials invalid it
raises (and its own handler re-raises). -/
def get_google_sheets_service (ts : TokenFileState) : ServiceOutcome :=
  match ts with
  | .valid => ⟨.ok (), false⟩
  | .absent => ⟨.error .otherError, false⟩
  | .invalid => ⟨.error .otherError, false⟩

/-- Environment of one `append_to_google_sheet` call: the token-file state,
the outcome of the `A2:A` read (the listed rows, each row the list of its
cell values), and the outcome of the append API call. -/
structure SheetEnv where
  tokenFile : TokenFileState
  colA : Except PyExc (List (List String))
  appendCall : Except PyExc Unit

/-- Source line 191:
`set(value[0] for value in result.get('values', []) if value)` — the first
cell of every non-empty returned row.  (The Python set is modelled as a list;
only membership is ever used.) -/
def existing_ids (rows : List (List String)) : List String :=
  rows.filterMap List.head?

/-- Source lines 195-201: the filter loop that keeps, in order, exactly the
collected pairs whose file id is not already in the sheet. -/
def values_to_append (existing : List String) :
    List (String × Json) → List (String × Json)
  | [] => []
  | (file_id, permalink) :: rest =>
    if file_id ∈ existing then values_to_append existing rest
    else (file_id, permalink) :: values_to_append existing rest

/-- The `try` block of `append_to_google_sheet` (source lines 184-217):
build the service, read column A, filter, and append when the filtered list
is non-empty.  The value is the list of rows actually appended to the sheet
(`[]` when the filter is empty and no write is performed); `.error` is an
exception reaching the handlers. -/
def append_to_google_sheet_try (env : SheetEnv)
    (results : List (String × Json)) : Except PyExc (List (String × Json)) :=
  match (get_google_sheets_service env.tokenFile).result with
  | .error e => .error e
  | .ok _ =>
    match env.colA with
    | .error e => .error e
    | .ok rows =>
      let vta := values_to_append (existing_ids rows) results
      if vta.isEmpty then .ok []
      else
        match env.appendCall with
        | .error e => .error e
        | .ok _ => .ok vta

/-- Result of a Python call as seen by its caller: a normal return, or a
propagating exception. -/
inductive PyResult (α : Type) where
  | ok (a : α)
  | raised (e : PyExc)

/-- Source `append_to_google_sheet` with its two exception handlers: an
`HttpError` is logged and swallowed, and so is every other `Exception`; in
either case nothing was appended and the function returns normally. -/
def append_to_google_sheet (env : SheetEnv) (results : List (String × Json)) :
    PyResult (List (String × Json)) :=
  match append_to_google_sheet_try env results with
  | .ok appended => .ok appended
  | .error .httpError => .ok []
  | .error .otherError => .ok []

/-- The exception logged (and swallowed) by `append_to_google_sheet`'s
handlers, when one was raised in its `try` block. -/
def append_loggedError (env : SheetEnv) (results : List (String × Json)) :
    Option PyExc :=
  match append_to_google_sheet_try env results with
  | .ok _ => none
  | .error e => some e

/- ----------------------------------------------------------------------
Orchestrator: main (source lines 223-245).
---------------------------------------------------------------------- -/

/-- The per-file loop of `main` (source lines 234-240): each id is processed
by `set_permissions_and_get_permalink`; an uncaught exception from it aborts
the whole loop (second component true), otherwise its result is accumulated
in order. -/
def processFiles (permEnv geminiEnv : String → Option Json) :
    List String → List PermResult × Bool
  | [] => ([], false)
  | file_id :: rest =>
    match set_permissions_and_get_permalink (permEnv file_id)
        (geminiEnv file_id) file_id with
    | none => ([], true)
    | some r =>
      let next := processFiles permEnv geminiEnv rest
      (r :: next.1, next.2)

/-- Source lines 238-239: a file's pair is collected for the sheet exactly
when `result["success"] and result["permalink"]` is truthy. -/
def collectResults (prs : List PermResult) : List (String × Json) :=
  prs.filterMap fun r =>
    match r.permalink with
    | some j => if r.success && j.truthy then some (r.file_id, j) else none
    | none => none

/-- The full external environment of one run: configuration, the token
endpoint's answer, the remote folder contents, the per-file permission and
Gemini responses, and the spreadsheet side. -/
structure World where
  config : Config
  tokenResp : TokenResp
  folder : List (Option String)
  permEnv : String → Option Json
  geminiEnv : String → Option Json
  tokenFile : TokenFileState
  colA : Except PyExc (List (List String))
  appendCall : Except PyExc Unit

/-- Observable trace of one run of `main`: whether the token refresh
succeeded, whether `fetch_file_ids` was invoked, the listed ids, the per-file
results produced (in order, up to a crash), whether an uncaught exception
aborted the run, and the rows appended to the sheet. -/
structure RunTrace where
  refreshOk : Bool
  fetchCalled : Bool
  file_ids : List String
  perFile : List PermResult
  crashed : Bool
  appended : List (String × Json)

/-- Source `main`: refresh the token (aborting the run on failure), list the
files, process each id in order, and synchronize the successful results into
the sheet when there are any. -/
def main (w : World) : RunTrace :=
  let r := refresh_access_token w.config w.tokenResp ⟨none, none⟩
  if r.success then
    let ids := (fetch_file_ids w.folder).1
    let pr := processFiles w.permEnv w.geminiEnv ids
    if pr.2 then ⟨true, true, ids, pr.1, true, []⟩
    else
      let results := collectResults pr.1
      let appended :=
        if results.isEmpty then []
        else
          match append_to_google_sheet ⟨w.tokenFile, w.colA, w.appendCall⟩
              results with
          | .ok l => l
          | .raised _ => []
      ⟨true, true, ids, pr.1, false, appended⟩
  else ⟨false, false, [], [], false, []⟩

/-- A Gemini response body whose single candidate carries the plain text
answer `t` — the shape the generative API returns on success. -/
def geminiTextResponse (t : String) : Json :=
  .obj [("candidates", .arr [.obj [("content",
    .obj [("parts", .arr [.obj [("text", .str t)]])])]])]

/- ----------------------------------------------------------------------
Helper lemmas.
---------------------------------------------------------------------- -/

theorem values_to_append_eq_filter (E : List String) (L : List (String × Json)) :
    values_to_append E L = L.filter fun p => decide (p.1 ∉ E) := by
  induction L with
  | nil => rfl
  | cons p rest ih =>
    obtain ⟨fid, pl⟩ := p
    by_cases h : fid ∈ E <;> simp [values_to_append, List.filter_cons, h, ih]

theorem values_to_append_second_run (E : List String) (L : List (String × Json)) :
    values_to_append (E ++ (values_to_append E L).map Prod.fst) L = [] := by
  rw [values_to_append_eq_filter, List.filter_eq_nil_iff]
  intro p hp
  simp only [decide_eq_true_eq, Decidable.not_not, List.mem_append]
  by_cases h : p.1 ∈ E
  · exact Or.inl h
  · refine Or.inr (List.mem_map_of_mem Prod.fst ?_)
    rw [values_to_append_eq_filter]
    exact List.mem_filter.mpr ⟨hp, by simp [h]⟩

theorem filterMap_head_singleton (l : List (String × Json)) :
    List.filterMap List.head? (l.map fun p => [p.1]) = l.map Prod.fst := by
  induction l with
  | nil => rfl
  | cons p rest ih => simp [ih]

theorem existing_ids_append_map (rows : List (List String))
    (l : List (String × Json)) :
    existing_ids (rows ++ l.map fun p => [p.1]) =
      existing_ids rows ++ l.map Prod.fst := by
  unfold existing_ids
  rw [List.filterMap_append, filterMap_head_singleton]

theorem append_to_google_sheet_ok (rows : List (List String))
    (L : List (String × Json)) :
    append_to_google_sheet ⟨.valid, .ok rows, .ok ()⟩ L =
      .ok (values_to_append (existing_ids rows) L) := by
  unfold append_to_google_sheet append_to_google_sheet_try
    get_google_sheets_service
  by_cases h : (values_to_append (existing_ids rows) L).isEmpty
  · rw [List.isEmpty_iff] at h
    simp [h]
  · simp [h]

theorem collectIds_append (a b : List (Option String)) :
    collectIds (a ++ b) = collectIds a ++ collectIds b := by
  simp [collectIds, List.filterMap_append]

theorem fetch_file_ids_from_spec (folder : List (Option String)) (offset : Nat) :
    fetch_file_ids_from folder offset =
      (collectIds (folder.drop offset), (folder.length - offset) / 50 + 1) := by
  have H : ∀ (m off : Nat), folder.length - off ≤ m →
      fetch_file_ids_from folder off =
        (collectIds (folder.drop off), (folder.length - off) / 50 + 1) := by
    intro m
    induction m with
    | zero =>
      intro off hm
      have hlen : ((folder.drop off).take 50).length = 0 := by
        simp only [List.length_take, List.length_drop]
        omega
      rw [fetch_file_ids_from, dif_pos hlen]
      have hdrop : folder.drop off = [] := by
        apply List.eq_nil_of_length_eq_zero
        rw [List.length_drop]
        omega
      rw [hdrop]
      have hz : folder.length - off = 0 := by omega
      rw [hz]
      rfl
    | succ m ih =>
      intro off hm
      by_cases h1 : ((folder.drop off).take 50).length = 0
      · rw [fetch_file_ids_from, dif_pos h1]
        simp only [List.length_take, List.length_drop] at h1
        have hdrop : folder.drop off = [] := by
          apply List.eq_nil_of_length_eq_zero
          rw [List.length_drop]
          omega
        rw [hdrop]
        have hz : folder.length - off = 0 := by omega
        rw [hz]
        rfl
      · by_cases h2 : ((folder.drop off).take 50).length < 50
        · rw [fetch_file_ids_from, dif_neg h1, dif_pos h2]
          simp only [List.length_take, List.length_drop] at h1 h2
          have hle : (folder.drop off).length ≤ 50 := by
            rw [List.length_drop]
            omega
          rw [List.take_of_length_le hle]
          have hdiv : (folder.length - off) / 50 + 1 = 1 := by omega
          rw [hdiv]
        · rw [fetch_file_ids_from, dif_neg h1, dif_neg h2]
          simp only [List.length_take, List.length_drop] at h1 h2
          have h50 : 50 ≤ folder.length - off := by omega
          rw [ih (off + 50) (by omega)]
          have htake : (folder.drop off).take 50 ++ folder.drop (off + 50) =
              folder.drop off := by
            have hdd : folder.drop (off + 50) = (folder.drop off).drop 50 := by
              rw [List.drop_drop]
            rw [hdd, List.take_append_drop]
          have hids : collectIds ((folder.drop off).take 50) ++
              collectIds (folder.drop (off + 50)) = collectIds (folder.drop off) := by
            rw [← collectIds_append, htake]
          have hcnt : (folder.length - (off + 50)) / 50 + 1 + 1 =
              (folder.length - off) / 50 + 1 := by omega
          rw [Prod.mk.injEq]
          exact ⟨hids, hcnt⟩
  exact H (folder.length - offset) offset le_rfl

theorem collectIds_map_some (ids : List String) :
    (∀ s ∈ ids, s ≠ "") → collectIds (ids.map Option.some) = ids := by
  induction ids with
  | nil => intro _; rfl
  | cons a rest ih =>
    intro h
    have ha : a ≠ "" := h a (List.mem_cons_self a rest)
    have ih2 := ih fun s hs => h s (List.mem_cons_of_mem a hs)
    simp only [collectIds, List.map_cons, List.filterMap_cons] at ih2 ⊢
    rw [if_neg ha, ih2]

/- ----------------------------------------------------------------------
Claim theorems.
---------------------------------------------------------------------- -/

/-- C1: with the token file valid and the reads succeeding,
`append_to_google_sheet` appends exactly the sublist of the collected pairs
whose file id is not among the sheet's existing identifiers, in the
collected order; and a second run on the identical result set, against the
sheet extended by the first run's appended rows, appends zero rows. -/
theorem append_dedup_and_second_run_empty (rows : List (List String))
    (L : List (String × Json)) :
    append_to_google_sheet ⟨.valid, .ok rows, .ok ()⟩ L =
      .ok (L.filter fun p => decide (p.1 ∉ existing_ids rows)) ∧
    append_to_google_sheet
      ⟨.valid,
       .ok (rows ++ (L.filter fun p => decide (p.1 ∉ existing_ids rows)).map
         fun p => [p.1]),
       .ok ()⟩ L = .ok [] := by
  constructor
  · rw [append_to_google_sheet_ok, values_to_append_eq_filter]
  · rw [append_to_google_sheet_ok, existing_ids_append_map,
      ← values_to_append_eq_filter, values_to_append_second_run]

/-- C2: for a folder of exactly 120 files, each with a non-empty id,
`fetch_file_ids` issues exactly 3 page requests (limit 50, offsets 0, 50,
100) and returns all 120 identifiers in their original order. -/
theorem fetch_lists_120_files_in_3_requests (ids : List String)
    (h : ids.length = 120) (hne : ∀ s ∈ ids, s ≠ "") :
    fetch_file_ids (ids.map Option.some) = (ids, 3) := by
  rw [fetch_file_ids, fetch_file_ids_from_spec, List.drop_zero,
    collectIds_map_some ids hne]
  rw [Prod.mk.injEq]
  refine ⟨rfl, ?_⟩
  rw [List.length_map, h]

theorem fetch_lists_120_files_in_3_requests_witness :
    fetch_file_ids ((List.replicate 120 "a").map Option.some) =
      (List.replicate 120 "a", 3) :=
  fetch_lists_120_files_in_3_requests (List.replicate 120 "a") (by decide)
    (by decide)

/-- C3: when the permission POST for a file id raises a transport error,
`set_permissions_and_get_permalink` returns the record with no permalink and
success false, and the per-file loop of `main` goes on to process the
remaining ids exactly as it otherwise would (it does not abort the run).
The fixed per-file `time.sleep(1)` delay is pacing only and is not modelled. -/
theorem transport_error_yields_failure_and_continues
    (permEnv geminiEnv : String → Option Json) (file_id : String)
    (rest : List String) (h : permEnv file_id = none) :
    set_permissions_and_get_permalink (permEnv file_id) (geminiEnv file_id)
        file_id = some ⟨file_id, none, false⟩ ∧
    processFiles permEnv geminiEnv (file_id :: rest) =
      (⟨file_id, none, false⟩ :: (processFiles permEnv geminiEnv rest).1,
       (processFiles permEnv geminiEnv rest).2) := by
  constructor
  · rw [h]
    rfl
  · simp [processFiles, h, set_permissions_and_get_permalink]

theorem transport_error_yields_failure_and_continues_witness :
    set_permissions_and_get_permalink ((fun _ => none) "f1")
        ((fun _ => none) "f1") "f1" = some ⟨"f1", none, false⟩ ∧
    processFiles (fun _ => none) (fun _ => none) ("f1" :: ["f2"]) =
      (⟨"f1", none, false⟩ ::
          (processFiles (fun _ => none) (fun _ => none) ["f2"]).1,
       (processFiles (fun _ => none) (fun _ => none) ["f2"]).2) :=
  transport_error_yields_failure_and_continues (fun _ => none) (fun _ => none)
    "f1" ["f2"] rfl

theorem geminiExtractedText_textResponse (t : String) :
    geminiExtractedText (geminiTextResponse t) = some t := rfl

/-- C4: on a Gemini success response whose answer text is `t`, the extractor
strips `t` and then: yields no link when the stripped text is the sentinel
"None" or empty; yields no link when it does not begin with `http://` or
`https://`; and otherwise returns the stripped text unchanged as the link. -/
theorem extractor_text_rules (t : String) :
    (pyStrip t = "None" ∨ pyStrip t = "" →
      extract_permalink_with_gemini (some (geminiTextResponse t)) =
        some none) ∧
    (matchesUrlScheme (pyStrip t) = false →
      extract_permalink_with_gemini (some (geminiTextResponse t)) =
        some none) ∧
    (pyStrip t ≠ "None" → pyStrip t ≠ "" →
      matchesUrlScheme (pyStrip t) = true →
      extract_permalink_with_gemini (some (geminiTextResponse t)) =
        some (some (pyStrip t))) := by
  have he : geminiExtractedText (geminiTextResponse t) = some t := rfl
  refine ⟨fun h => ?_, fun h => ?_, fun h1 h2 h3 => ?_⟩ <;>
    simp only [extract_permalink_with_gemini, he]
  · rw [if_pos h]
  · by_cases hs : pyStrip t = "None" ∨ pyStrip t = ""
    · rw [if_pos hs]
    · rw [if_neg hs, if_neg (by simp [h])]
  · rw [if_neg (by tauto), if_pos h3]

theorem extractor_text_rules_witness :
    extract_permalink_with_gemini (some (geminiTextResponse "None")) =
      some none ∧
    extract_permalink_with_gemini (some (geminiTextResponse "not-a-url")) =
      some none ∧
    extract_permalink_with_gemini
        (some (geminiTextResponse "https://example.com/f")) =
      some (some "https://example.com/f") :=
  ⟨(extractor_text_rules "None").1 (Or.inl (by decide)),
   (extractor_text_rules "not-a-url").2.1 (by decide),
   (extractor_text_rules "https://example.com/f").2.2 (by decide) (by decide)
     (by decide)⟩

theorem main_of_refresh_failed (w : World)
    (h : (refresh_access_token w.config w.tokenResp ⟨none, none⟩).success =
      false) :
    main w = ⟨false, false, [], [], false, []⟩ := by
  simp [main, h]

/-- C5: when the token endpoint's answer is a transport failure, or a JSON
body without an `access_token` field, the run aborts at the refresh step:
`fetch_file_ids` is never invoked, no file id is listed, and no file is
processed. -/
theorem token_failure_aborts_before_listing (w : World)
    (h : w.tokenResp = TokenResp.transportErr ∨
      ∃ data, w.tokenResp = TokenResp.ok data ∧
        data.lookup "access_token" = none) :
    (main w).fetchCalled = false ∧ (main w).file_ids = [] ∧
    (main w).perFile = [] := by
  have hfail : (refresh_access_token w.config w.tokenResp ⟨none, none⟩).success =
      false := by
    unfold refresh_access_token
    split_ifs with g1 g2 g3
    · rfl
    · rfl
    · rfl
    · rcases h with h | ⟨data, hd, hl⟩
      · rw [h]
      · rw [hd]
        simp [hl]
  rw [main_of_refresh_failed w hfail]
  exact ⟨rfl, rfl, rfl⟩

theorem token_failure_aborts_before_listing_witness :
    (main ⟨⟨some "r", some "c", some "s", some "g", some "i"⟩,
        TokenResp.transportErr, [], fun _ => none, fun _ => none,
        TokenFileState.valid, .ok [], .ok ()⟩).fetchCalled = false ∧
    (main ⟨⟨some "r", some "c", some "s", some "g", some "i"⟩,
        TokenResp.transportErr, [], fun _ => none, fun _ => none,
        TokenFileState.valid, .ok [], .ok ()⟩).file_ids = [] ∧
    (main ⟨⟨some "r", some "c", some "s", some "g", some "i"⟩,
        TokenResp.transportErr, [], fun _ => none, fun _ => none,
        TokenFileState.valid, .ok [], .ok ()⟩).perFile = [] :=
  token_failure_aborts_before_listing _ (Or.inl rfl)

/-- C6 counterexample: with ZOHO_REFRESH_TOKEN present but set to the empty
string (and the other four values usable), `refresh_access_token` does not
fail with a configuration error: the check `None in refresh_params.values()`
only detects unset variables, so the network call to the token endpoint is
issued (and here even succeeds). -/
theorem empty_refresh_token_not_rejected :
    (refresh_access_token ⟨some "", some "cid", some "csec", some "gk",
        some "sid"⟩ (.ok [("access_token", "tok")]) ⟨none, none⟩).networkCalled =
      true ∧
    (refresh_access_token ⟨some "", some "cid", some "csec", some "gk",
        some "sid"⟩ (.ok [("access_token", "tok")]) ⟨none, none⟩).success =
      true := ⟨rfl, rfl⟩

/-- C6 (amended): if the refresh token, client id, or client secret is unset,
or the generative-API key or spreadsheet id is unset or empty, then
`refresh_access_token` fails before making any network call, and the run
aborts (an empty-but-set value of the first three is not detected). -/
theorem missing_config_fails_before_network (w : World)
    (h : w.config.ZOHO_REFRESH_TOKEN = none ∨ w.config.ZOHO_CLIENT_ID = none ∨
      w.config.ZOHO_CLIENT_SECRET = none ∨
      pyFalsy w.config.GEMINI_API_KEY = true ∨
      pyFalsy w.config.GOOGLE_SPREADSHEET_ID = true) :
    (refresh_access_token w.config w.tokenResp ⟨none, none⟩).success = false ∧
    (refresh_access_token w.config w.tokenResp ⟨none, none⟩).networkCalled =
      false ∧
    (main w).fetchCalled = false := by
  have key : (refresh_access_token w.config w.tokenResp ⟨none, none⟩).success =
      false ∧
      (refresh_access_token w.config w.tokenResp ⟨none, none⟩).networkCalled =
        false := by
    unfold refresh_access_token
    split_ifs with g1 g2 g3
    · exact ⟨rfl, rfl⟩
    · exact ⟨rfl, rfl⟩
    · exact ⟨rfl, rfl⟩
    · exfalso
      rcases h with h | h | h | h | h
      · exact g1 (Or.inl h)
      · exact g1 (Or.inr (Or.inl h))
      · exact g1 (Or.inr (Or.inr h))
      · exact g2 h
      · exact g3 h
  exact ⟨key.1, key.2, by rw [main_of_refresh_failed w key.1]⟩

theorem missing_config_fails_before_network_witness :
    (refresh_access_token ⟨none, some "c", some "s", some "g", some "i"⟩
        (.ok [("access_token", "t")]) ⟨none, none⟩).success = false ∧
    (refresh_access_token ⟨none, some "c", some "s", some "g", some "i"⟩
        (.ok [("access_token", "t")]) ⟨none, none⟩).networkCalled = false ∧
    (main ⟨⟨none, some "c", some "s", some "g", some "i"⟩,
        .ok [("access_token", "t")], [], fun _ => none, fun _ => none,
        TokenFileState.valid, .ok [], .ok ()⟩).fetchCalled = false :=
  missing_config_fails_before_network
    ⟨⟨none, some "c", some "s", some "g", some "i"⟩,
      .ok [("access_token", "t")], [], fun _ => none, fun _ => none,
      TokenFileState.valid, .ok [], .ok ()⟩ (Or.inl rfl)

/-- C7: when the local Google token file is absent or invalid,
`get_google_sheets_service` raises (no interactive re-authorization is
attempted), the exception is reported by the synchronization step's handler,
and zero rows are appended — the run's sheet write is a precondition failure,
not silently treated as a successful append. -/
theorem missing_token_file_fails_sync (ts : TokenFileState)
    (h : ts ≠ TokenFileState.valid) (colA : Except PyExc (List (List String)))
    (appendCall : Except PyExc Unit) (results : List (String × Json)) :
    (get_google_sheets_service ts).result = .error .otherError ∧
    (get_google_sheets_service ts).interactiveReauth = false ∧
    append_loggedError ⟨ts, colA, appendCall⟩ results = some .otherError ∧
    append_to_google_sheet ⟨ts, colA, appendCall⟩ results = .ok [] := by
  cases ts with
  | valid => exact absurd rfl h
  | absent => exact ⟨rfl, rfl, rfl, rfl⟩
  | invalid => exact ⟨rfl, rfl, rfl, rfl⟩

theorem missing_token_file_fails_sync_witness :
    (get_google_sheets_service TokenFileState.absent).result =
      .error .otherError ∧
    (get_google_sheets_service TokenFileState.absent).interactiveReauth =
      false ∧
    append_loggedError ⟨TokenFileState.absent, .ok [], .ok ()⟩
        [("A", Json.str "x")] = some .otherError ∧
    append_to_google_sheet ⟨TokenFileState.absent, .ok [], .ok ()⟩
        [("A", Json.str "x")] = .ok [] :=
  missing_token_file_fails_sync TokenFileState.absent (by simp) (.ok [])
    (.ok ()) [("A", Json.str "x")]

/-- C8: `append_to_google_sheet` never lets an exception escape: whatever the
sheet environment does (service construction failure, read failure, append
failure, of either exception class), the call returns normally — every
`HttpError` and every other `Exception` from the read-filter-append step is
caught by its handlers and only logged. -/
theorem append_never_raises (env : SheetEnv) (results : List (String × Json)) :
    ∃ l, append_to_google_sheet env results = .ok l := by
  unfold append_to_google_sheet
  cases h : append_to_google_sheet_try env results with
  | ok l => exact ⟨l, rfl⟩
  | error e => cases e <;> exact ⟨[], rfl⟩

/-- C9: whenever `refresh_access_token` returns False — missing
configuration, a transport error, or a body without `access_token` — the
process-wide authorization state (`zoho_auth_token` and
`zoho_headers['Authorization']`) is exactly what it was before the call. -/
theorem refresh_failure_preserves_auth (cfg : Config) (resp : TokenResp)
    (st : AuthState)
    (h : (refresh_access_token cfg resp st).success = false) :
    (refresh_access_token cfg resp st).state = st := by
  unfold refresh_access_token at h ⊢
  split_ifs at h ⊢
  · rfl
  · rfl
  · rfl
  · cases resp with
    | transportErr => rfl
    | ok data =>
      cases hl : data.lookup "access_token" with
      | none => simp [hl]
      | some tok => simp [hl] at h

theorem refresh_failure_preserves_auth_witness :
    (refresh_access_token ⟨none, none, none, none, none⟩
        TokenResp.transportErr ⟨none, none⟩).state = ⟨none, none⟩ :=
  refresh_failure_preserves_auth ⟨none, none, none, none, none⟩
    TokenResp.transportErr ⟨none, none⟩ rfl

theorem extract_of_text_None (resp : Json)
    (h : geminiExtractedText resp = some "None") :
    extract_permalink_with_gemini (some resp) = some none := by
  simp only [extract_permalink_with_gemini, h]
  decide

/-- C10: on a Gemini response object with no `candidates` key — or whose
first candidate lacks `content`, whose content lacks `parts`, or whose first
part lacks `text`, each accessed list being non-empty — the defaulted nested
lookups raise nothing, bottom out at the sentinel "None", and the extractor
returns no link. -/
theorem gemini_absent_fields_default_to_no_link :
    (∀ fs : List (String × Json), fs.lookup "candidates" = none →
      extract_permalink_with_gemini (some (.obj fs)) = some none) ∧
    (∀ (fs c0 : List (String × Json)) (rest : List Json),
      fs.lookup "candidates" = some (.arr (.obj c0 :: rest)) →
      c0.lookup "content" = none →
      extract_permalink_with_gemini (some (.obj fs)) = some none) ∧
    (∀ (fs c0 cf : List (String × Json)) (rest : List Json),
      fs.lookup "candidates" = some (.arr (.obj c0 :: rest)) →
      c0.lookup "content" = some (.obj cf) →
      cf.lookup "parts" = none →
      extract_permalink_with_gemini (some (.obj fs)) = some none) ∧
    (∀ (fs c0 cf p0 : List (String × Json)) (rest restP : List Json),
      fs.lookup "candidates" = some (.arr (.obj c0 :: rest)) →
      c0.lookup "content" = some (.obj cf) →
      cf.lookup "parts" = some (.arr (.obj p0 :: restP)) →
      p0.lookup "text" = none →
      extract_permalink_with_gemini (some (.obj fs)) = some none) := by
  refine ⟨fun fs h => ?_, fun fs c0 rest h1 h2 => ?_,
    fun fs c0 cf rest h1 h2 h3 => ?_,
    fun fs c0 cf p0 rest restP h1 h2 h3 h4 => ?_⟩
  · apply extract_of_text_None
    simp [geminiExtractedText, pyGetD, pyIndex, h]
  · apply extract_of_text_None
    simp [geminiExtractedText, pyGetD, pyIndex, h1, h2]
  · apply extract_of_text_None
    simp [geminiExtractedText, pyGetD, pyIndex, h1, h2, h3]
  · apply extract_of_text_None
    simp [geminiExtractedText, pyGetD, pyIndex, h1, h2, h3, h4]

theorem gemini_absent_fields_default_to_no_link_witness :
    extract_permalink_with_gemini (some (.obj [])) = some none ∧
    extract_permalink_with_gemini
        (some (.obj [("candidates", .arr [.obj []])])) = some none ∧
    extract_permalink_with_gemini
        (some (.obj [("candidates",
          .arr [.obj [("content", .obj [])]])])) = some none ∧
    extract_permalink_with_gemini
        (some (.obj [("candidates",
          .arr [.obj [("content",
            .obj [("parts", .arr [.obj []])])]])])) = some none :=
  ⟨gemini_absent_fields_default_to_no_link.1 [] rfl,
   gemini_absent_fields_default_to_no_link.2.1
     [("candidates", .arr [.obj []])] [] [] rfl rfl,
   gemini_absent_fields_default_to_no_link.2.2.1
     [("candidates", .arr [.obj [("content", .obj [])]])]
     [("content", .obj [])] [] [] rfl rfl rfl,
   gemini_absent_fields_default_to_no_link.2.2.2
     [("candidates", .arr [.obj [("content", .obj [("parts",
       .arr [.obj []])])]])]
     [("content", .obj [("parts", .arr [.obj []])])]
     [("parts", .arr [.obj []])] [] [] [] rfl rfl rfl rfl⟩

end Googlesheety
